import Mathlib

/-! Shallow embedding of the grafix half of emoji.js: canvas drawing
primitives (drawLine, drawText), the grid / center / text-box composite
drawers, the diagnostics toggles and compositor, the frame-rate
estimator and the timekeeper counters.  The canvas 2D context is
modelled as an explicit state record; drawing calls append commands to
an output trace.  JavaScript numbers are modelled as ℚ for geometry,
ℤ for timestamps and ℕ for the timekeeper counters (all values the
source manipulates stay integral and below 2^53, where doubles are
exact). -/

namespace Grafix

/-- Persistent style state of a 2D canvas context: strokeStyle,
lineWidth, fillStyle, font. -/
structure CtxStyle where
  strokeStyle : String
  lineWidth : ℚ
  fillStyle : String
  font : String
deriving DecidableEq

/-- One path construction step (moveTo / lineTo). -/
inductive PathSeg where
  | move (x y : ℚ)
  | lineTo (x y : ℚ)
deriving DecidableEq

/-- An observable drawing command issued to the canvas: a stroked path
with the stroke style in force, or filled text with the fill style and
font in force. -/
inductive Cmd where
  | stroke (path : List PathSeg) (strokeStyle : String) (lineWidth : ℚ)
  | fillText (message : String) (x y : ℚ) (fillStyle font : String)
deriving DecidableEq

/-- The canvas 2D context: current style, the save/restore stack, the
current path under construction, and the trace of commands issued. -/
structure Ctx where
  style : CtxStyle
  stack : List CtxStyle
  path : List PathSeg
  out : List Cmd
deriving DecidableEq

/-- ctx.save(): push the current style state. -/
def save (c : Ctx) : Ctx :=
  { c with stack := c.style :: c.stack }

/-- ctx.restore(): pop the most recently saved style state (no-op on an
empty stack, as in the canvas spec). -/
def restore (c : Ctx) : Ctx :=
  match c.stack with
  | [] => c
  | s :: rest => { c with style := s, stack := rest }

/-- ctx.beginPath(). -/
def beginPath (c : Ctx) : Ctx :=
  { c with path := [] }

/-- ctx.moveTo(x, y). -/
def moveTo (x y : ℚ) (c : Ctx) : Ctx :=
  { c with path := c.path ++ [PathSeg.move x y] }

/-- ctx.lineTo(x, y). -/
def lineTo (x y : ℚ) (c : Ctx) : Ctx :=
  { c with path := c.path ++ [PathSeg.lineTo x y] }

/-- ctx.lineWidth = w. -/
def setLineWidth (w : ℚ) (c : Ctx) : Ctx :=
  { c with style := { c.style with lineWidth := w } }

/-- ctx.strokeStyle = s. -/
def setStrokeStyle (s : String) (c : Ctx) : Ctx :=
  { c with style := { c.style with strokeStyle := s } }

/-- ctx.fillStyle = s. -/
def setFillStyle (s : String) (c : Ctx) : Ctx :=
  { c with style := { c.style with fillStyle := s } }

/-- ctx.font = f. -/
def setFont (f : String) (c : Ctx) : Ctx :=
  { c with style := { c.style with font := f } }

/-- ctx.stroke(): emit the current path with the current stroke state. -/
def stroke (c : Ctx) : Ctx :=
  { c with out := c.out ++ [Cmd.stroke c.path c.style.strokeStyle c.style.lineWidth] }

/-- ctx.fillText(message, x, y): emit text with the current fill state. -/
def fillText (message : String) (x y : ℚ) (c : Ctx) : Ctx :=
  { c with out := c.out ++ [Cmd.fillText message x y c.style.fillStyle c.style.font] }

/-- The canvas element: width and height. -/
structure Canvas where
  width : Int
  height : Int
deriving DecidableEq

/-- The lineProps property bag: endpoints and stroke style. -/
structure LineProps where
  x1 : ℚ
  y1 : ℚ
  x2 : ℚ
  y2 : ℚ
  strokeStyle : String
  lineWidth : ℚ
deriving DecidableEq

/-- The textProps property bag: message, anchor and fill/font style. -/
structure TextProps where
  message : String
  x : ℚ
  y : ℚ
  fillStyle : String
  font : String
deriving DecidableEq

/-- drawLine(ctx, lineProps): save, beginPath, moveTo, lineTo, set
lineWidth and strokeStyle, stroke, restore. -/
def drawLine (lp : LineProps) (c : Ctx) : Ctx :=
  restore (stroke (setStrokeStyle lp.strokeStyle (setLineWidth lp.lineWidth
    (lineTo lp.x2 lp.y2 (moveTo lp.x1 lp.y1 (beginPath (save c)))))))

/-- drawText(ctx, textProps): save, set fillStyle and font, fillText,
restore. -/
def drawText (tp : TextProps) (c : Ctx) : Ctx :=
  restore (fillText tp.message tp.x tp.y (setFont tp.font (setFillStyle tp.fillStyle (save c))))

/-- The loop header for (let v = 0; v < limit; v += 30): the sequence of
loop-variable values, starting at x. -/
def gridSteps (limit x : Int) : List Int :=
  if x < limit then x :: gridSteps limit (x + 30) else []
termination_by (limit - x).toNat
decreasing_by omega

/-- drawGrid(canvas, ctx): vertical lines every 30px with a numeric
label near the top, then horizontal lines every 30px with a numeric
label near the left edge. -/
def drawGrid (canvas : Canvas) (c : Ctx) : Ctx :=
  let c1 := (gridSteps canvas.width 0).foldl
    (fun acc (x : Int) =>
      drawText
        { message := toString x, x := (x : ℚ) - 4, y := 20,
          fillStyle := "gray", font := "12px Arial" }
        (drawLine
          { x1 := (x : ℚ), y1 := 0, x2 := (x : ℚ), y2 := (canvas.height : ℚ),
            strokeStyle := "#333", lineWidth := 2 } acc)) c
  (gridSteps canvas.height 0).foldl
    (fun acc (y : Int) =>
      drawText
        { message := toString y, x := 10, y := (y : ℚ) + 4,
          fillStyle := "gray", font := "12px Arial" }
        (drawLine
          { x1 := 0, y1 := (y : ℚ), x2 := (canvas.width : ℚ), y2 := (y : ℚ),
            strokeStyle := "#333", lineWidth := 2 } acc)) c1

/-- drawCenter(canvas, ctx): one horizontal and one vertical darkgray
line of width 4 through the canvas center. -/
def drawCenter (canvas : Canvas) (c : Ctx) : Ctx :=
  drawLine
    { x1 := (canvas.width : ℚ) / 2, y1 := 0, x2 := (canvas.width : ℚ) / 2,
      y2 := (canvas.height : ℚ), strokeStyle := "darkgray", lineWidth := 4 }
    (drawLine
      { x1 := 0, y1 := (canvas.height : ℚ) / 2, x2 := (canvas.width : ℚ),
        y2 := (canvas.height : ℚ) / 2, strokeStyle := "darkgray", lineWidth := 4 } c)

/-- Result of ctx.measureText: width and the actual bounding-box
ascent/descent. -/
structure TextMetrics where
  width : ℚ
  actualBoundingBoxAscent : ℚ
  actualBoundingBoxDescent : ℚ
deriving DecidableEq

/-- The textBox record returned by getTextBox (source field names,
including the textHorizonalCenter spelling). -/
structure TextBox where
  textTop : ℚ
  textBottom : ℚ
  textHeight : ℚ
  textMid : ℚ
  textLeft : ℚ
  textRight : ℚ
  textWidth : ℚ
  textHorizonalCenter : ℚ
  textVerticalCenter : ℚ
deriving DecidableEq

/-- getTextBox(ctx, textProps): measure the message with the context's
current font (the measurement capability is passed explicitly as a
function of the font in force and the message) and derive the textBox
fields.  The source function never writes to the context. -/
def getTextBox (measure : String → String → TextMetrics) (c : Ctx) (tp : TextProps) : TextBox :=
  let textMetrics := measure c.style.font tp.message
  let textTop := |tp.y - textMetrics.actualBoundingBoxAscent|
  let textBottom := |tp.y + textMetrics.actualBoundingBoxDescent|
  let textHeight := textBottom - textTop
  let textMid := textTop + textHeight / 2
  let textLeft := tp.x
  let textRight := tp.x + textMetrics.width
  { textTop := textTop
    textBottom := textBottom
    textHeight := textHeight
    textMid := textMid
    textLeft := textLeft
    textRight := textRight
    textWidth := textMetrics.width
    textHorizonalCenter := textLeft + textMetrics.width / 2
    textVerticalCenter := textMid }

/-- Reading of getTextBox claimed by the spec sentence "Must apply the
surface's fill/font state before measuring": first assign the text
spec's fillStyle and font to the surface, then measure.  Kept separate
so it can be compared with the source's getTextBox. -/
def getTextBoxSpecced (measure : String → String → TextMetrics) (c : Ctx) (tp : TextProps) : TextBox :=
  getTextBox measure (setFont tp.font (setFillStyle tp.fillStyle c)) tp

/-- drawTextBox(ctx, canvas, textProps): assign the spec's fillStyle and
font to the context, measure via getTextBox, then draw the five guide
lines (top, bottom, mid, left, right), each a distinct color. -/
def drawTextBox (measure : String → String → TextMetrics) (c : Ctx) (canvas : Canvas) (tp : TextProps) : Ctx :=
  let c1 := setFont tp.font (setFillStyle tp.fillStyle c)
  let tb := getTextBox measure c1 tp
  drawLine
    { x1 := tb.textRight, y1 := 0, x2 := tb.textRight, y2 := (canvas.height : ℚ),
      strokeStyle := "chartreuse", lineWidth := 2 }
    (drawLine
      { x1 := tb.textLeft, y1 := 0, x2 := tb.textLeft, y2 := (canvas.height : ℚ),
        strokeStyle := "cyan", lineWidth := 2 }
      (drawLine
        { x1 := 0, y1 := tb.textMid, x2 := (canvas.width : ℚ), y2 := tb.textMid,
          strokeStyle := "red", lineWidth := 2 }
        (drawLine
          { x1 := 0, y1 := tb.textBottom, x2 := (canvas.width : ℚ), y2 := tb.textBottom,
            strokeStyle := "orange", lineWidth := 2 }
          (drawLine
            { x1 := 0, y1 := tb.textTop, x2 := (canvas.width : ℚ), y2 := tb.textTop,
              strokeStyle := "yellow", lineWidth := 2 } c1))))

/-- The buttonBarToggles property bag: visibility flags for the five
diagnostic overlays. -/
structure ButtonBarToggles where
  showGrid : Bool
  showCenter : Bool
  showTextBox : Bool
  showMouseCoordinates : Bool
  showFPS : Bool
deriving DecidableEq

/-- Initial value of buttonBarToggles in the source (all true). -/
def buttonBarToggles : ButtonBarToggles :=
  { showGrid := true, showCenter := true, showTextBox := true,
    showMouseCoordinates := true, showFPS := true }

/-- The toggle names addButtonToBar is invoked with by buttonBar(). -/
inductive ToggleName where
  | showGrid
  | showCenter
  | showTextBox
  | showMouseCoordinates
  | showFPS
deriving DecidableEq

/-- Read the named toggle. -/
def getToggle (n : ToggleName) (t : ButtonBarToggles) : Bool :=
  match n with
  | ToggleName.showGrid => t.showGrid
  | ToggleName.showCenter => t.showCenter
  | ToggleName.showTextBox => t.showTextBox
  | ToggleName.showMouseCoordinates => t.showMouseCoordinates
  | ToggleName.showFPS => t.showFPS

/-- The click listener installed by addButtonToBar:
buttonBarToggles[toggle] = !buttonBarToggles[toggle]. -/
def addButtonToBarClick (n : ToggleName) (t : ButtonBarToggles) : ButtonBarToggles :=
  match n with
  | ToggleName.showGrid => { t with showGrid := !t.showGrid }
  | ToggleName.showCenter => { t with showCenter := !t.showCenter }
  | ToggleName.showTextBox => { t with showTextBox := !t.showTextBox }
  | ToggleName.showMouseCoordinates => { t with showMouseCoordinates := !t.showMouseCoordinates }
  | ToggleName.showFPS => { t with showFPS := !t.showFPS }

/-- The frameRateProps property bag: derived fps, retained timestamps,
and the throttle counter. -/
structure FrameRateProps where
  fps : Nat
  times : List Int
  counter : Nat
deriving DecidableEq

/-- Initial value of frameRateProps in the source. -/
def frameRateProps : FrameRateProps :=
  { fps := 0, times := [], counter := 0 }

/-- The state-update portion of drawFrameRate (the spec's recordFrame):
evict leading timestamps satisfying times[0] <= timeStamp - 1000, push
the new timestamp, bump the throttle counter, and when the counter
exceeds 10 publish fps = times.length and reset the counter. -/
def recordFrame (s : FrameRateProps) (timeStamp : Int) : FrameRateProps :=
  if s.counter + 1 > 10 then
    { fps := (s.times.dropWhile (fun x => decide (x ≤ timeStamp - 1000)) ++ [timeStamp]).length
      times := s.times.dropWhile (fun x => decide (x ≤ timeStamp - 1000)) ++ [timeStamp]
      counter := 0 }
  else
    { fps := s.fps
      times := s.times.dropWhile (fun x => decide (x ≤ timeStamp - 1000)) ++ [timeStamp]
      counter := s.counter + 1 }

/-- drawFrameRate(canvas, ctx, timeStamp, frameRateProps): update the
frame-rate state, then write "FPS: n" near the bottom-right corner in
yellow 14px monospace. -/
def drawFrameRate (canvas : Canvas) (timeStamp : Int) (c : Ctx) (frp : FrameRateProps) :
    Ctx × FrameRateProps :=
  let frp2 := recordFrame frp timeStamp
  (fillText ("FPS: " ++ toString frp2.fps) ((canvas.width : ℚ) - 100) ((canvas.height : ℚ) - 30)
    (setFont "14px monospace" (setFillStyle "yellow" c)), frp2)

/-- The mouseProps property bag. -/
structure MouseProps where
  mouseX : Int
  mouseY : Int
deriving DecidableEq

/-- drawMouseMove(canvas, ctx): write "x,y" near the bottom-left corner
in yellow 14px monospace. -/
def drawMouseMove (canvas : Canvas) (mouse : MouseProps) (c : Ctx) : Ctx :=
  fillText (toString mouse.mouseX ++ "," ++ toString mouse.mouseY) 35 ((canvas.height : ℚ) - 30)
    (setFont "14px monospace" (setFillStyle "yellow" c))

/-- drawDiagonstics(canvas, ctx, timeStamp): inside one save/restore
bracket, conditionally draw the grid, the center reticle, the mouse
coordinates and the frame rate.  The showTextBox branch is commented
out in the source. -/
def drawDiagonstics (canvas : Canvas) (timeStamp : Int) (tog : ButtonBarToggles)
    (mouse : MouseProps) (c : Ctx) (frp : FrameRateProps) : Ctx × FrameRateProps :=
  let c0 := save c
  let c1 := if tog.showGrid then drawGrid canvas c0 else c0
  let c2 := if tog.showCenter then drawCenter canvas c1 else c1
  let c3 := if tog.showMouseCoordinates then drawMouseMove canvas mouse c2 else c2
  let p := if tog.showFPS then drawFrameRate canvas timeStamp c3 frp else (c3, frp)
  (restore p.1, p.2)

/-- Number.MAX_SAFE_INTEGER. -/
def maxSafeInteger : Nat := 2 ^ 53 - 1

/-- The timeKeeper property bag: frames, generations and cycles. -/
structure TimeKeeper where
  frameCount : Nat
  generationCount : Nat
  cycleCount : Nat
deriving DecidableEq

/-- initTimeKeeper(): all three counters zero (also the source's initial
timeKeeper value). -/
def initTimeKeeper : TimeKeeper :=
  { frameCount := 0, generationCount := 0, cycleCount := 0 }

/-- countGenerations(): increment generationCount, reset it to 0 when it
equals MAX_SAFE_INTEGER, then recompute cycleCount as
floor(generationCount / 4). -/
def countGenerations (tk : TimeKeeper) : TimeKeeper :=
  { frameCount := tk.frameCount
    generationCount :=
      if tk.generationCount + 1 = maxSafeInteger then 0 else tk.generationCount + 1
    cycleCount :=
      (if tk.generationCount + 1 = maxSafeInteger then 0 else tk.generationCount + 1) / 4 }

/-- countFrames(): increment frameCount, reset it to 0 when it equals
MAX_SAFE_INTEGER. -/
def countFrames (tk : TimeKeeper) : TimeKeeper :=
  { tk with frameCount :=
      if tk.frameCount + 1 = maxSafeInteger then 0 else tk.frameCount + 1 }

/-- A context with empty style, stack, path and output trace. -/
def emptyCtx : Ctx :=
  { style := { strokeStyle := "", lineWidth := 0, fillStyle := "", font := "" },
    stack := [], path := [], out := [] }

/-- An interleaving step for the primitive drawers: one drawLine or one
drawText call. -/
inductive DrawOp where
  | line (lp : LineProps)
  | text (tp : TextProps)

/-- Apply one interleaving step to a context. -/
def drawOpStep (c : Ctx) (op : DrawOp) : Ctx :=
  match op with
  | DrawOp.line lp => drawLine lp c
  | DrawOp.text tp => drawText tp c

/-- Iterating countGenerations n times from the zero state, with n below
the wrap threshold, yields generationCount = n. -/
theorem countGenerations_iterate_gen (n : Nat) (hn : n < maxSafeInteger) :
    (countGenerations^[n] initTimeKeeper).generationCount = n := by
  induction n with
  | zero => rfl
  | succ m ih =>
    have hm : m < maxSafeInteger := lt_trans (Nat.lt_succ_self m) hn
    rw [Function.iterate_succ_apply']
    simp [countGenerations, ih hm, Nat.ne_of_lt hn]

/-- Iterating countGenerations n times from the zero state, with n below
the wrap threshold, yields cycleCount = n / 4. -/
theorem countGenerations_iterate_cycle (n : Nat) (hn : n < maxSafeInteger) :
    (countGenerations^[n] initTimeKeeper).cycleCount = n / 4 := by
  cases n with
  | zero => rfl
  | succ m =>
    have hm : m < maxSafeInteger := lt_trans (Nat.lt_succ_self m) hn
    rw [Function.iterate_succ_apply']
    simp [countGenerations, countGenerations_iterate_gen m hm, Nat.ne_of_lt hn]

/-- C5: the Timekeeper invariant cycleCount = floor(generationCount / 4)
holds after initTimeKeeper and after every countGenerations call, and
calling countGenerations 4k times from the zero state yields
cycleCount = k for every k with 4k below the wrap threshold. -/
theorem timeKeeper_cycle_invariant :
    initTimeKeeper.cycleCount = initTimeKeeper.generationCount / 4 ∧
    (∀ tk : TimeKeeper,
      (countGenerations tk).cycleCount = (countGenerations tk).generationCount / 4) ∧
    (∀ k : Nat, 4 * k < maxSafeInteger →
      (countGenerations^[4 * k] initTimeKeeper).cycleCount = k) := by
  refine ⟨rfl, fun tk => rfl, fun k hk => ?_⟩
  rw [countGenerations_iterate_cycle (4 * k) hk]
  exact Nat.mul_div_cancel_left k (by norm_num)

/-- Witness for C5 at k = 3. -/
theorem timeKeeper_cycle_invariant_witness :
    4 * 3 < maxSafeInteger ∧ (countGenerations^[4 * 3] initTimeKeeper).cycleCount = 3 :=
  ⟨by decide, timeKeeper_cycle_invariant.2.2 3 (by decide)⟩

/-- C1 counterexample: advancing the generation counter once from
max-safe-integer minus 1 does not leave it at max-safe-integer (the
wrap to zero fires inside the same call). -/
theorem counter_wrap_counterexample :
    ¬ (countGenerations
        { frameCount := 0, generationCount := maxSafeInteger - 1, cycleCount := 0 }).generationCount
      = maxSafeInteger := by decide

/-- C1 amended: for either counter, starting from max-safe-integer minus
1 (2^53 - 2), a single advance already yields 0 — the counter wraps to
zero inside the call in which it reaches 2^53 - 1, so the value
2^53 - 1 is never observable after a call — and a second advance
yields 1. -/
theorem counter_wrap_amended :
    (countGenerations
      { frameCount := 0, generationCount := maxSafeInteger - 1, cycleCount := 0 }).generationCount
      = 0 ∧
    (countGenerations (countGenerations
      { frameCount := 0, generationCount := maxSafeInteger - 1, cycleCount := 0 })).generationCount
      = 1 ∧
    (countFrames
      { frameCount := maxSafeInteger - 1, generationCount := 0, cycleCount := 0 }).frameCount
      = 0 ∧
    (countFrames (countFrames
      { frameCount := maxSafeInteger - 1, generationCount := 0, cycleCount := 0 })).frameCount
      = 1 := by decide

/-- C3: from the initial frame-rate state, running drawFrameRate's
record logic 11 times with timestamps 0, 100, ..., 1000 leaves the
throttle counter at 0 and sets fps to the 10 timestamps retained in
the 1000ms window (timestamp 0 is evicted by times[0] <= 1000 - 1000). -/
theorem frameRate_scenario :
    (List.foldl recordFrame frameRateProps
      [0, 100, 200, 300, 400, 500, 600, 700, 800, 900, 1000]).counter = 0 ∧
    (List.foldl recordFrame frameRateProps
      [0, 100, 200, 300, 400, 500, 600, 700, 800, 900, 1000]).fps = 10 ∧
    (List.foldl recordFrame frameRateProps
      [0, 100, 200, 300, 400, 500, 600, 700, 800, 900, 1000]).times.length = 10 := by
  decide

/-- The retained-timestamp list after one recordFrame call: the source's
front-trimming while loop is dropWhile, followed by the push. -/
theorem recordFrame_times (s : FrameRateProps) (t : Int) :
    (recordFrame s t).times = s.times.dropWhile (fun x => decide (x ≤ t - 1000)) ++ [t] := by
  simp only [recordFrame]
  split <;> rfl

/-- Front-trimming a list keeps any pairwise ordering with a fixed
continuation. -/
theorem pairwise_dropWhile_append {α : Type} {R : α → α → Prop} (p : α → Bool) :
    ∀ (l r : List α), List.Pairwise R (l ++ r) → List.Pairwise R (l.dropWhile p ++ r) := by
  intro l
  induction l with
  | nil => intro r h; simpa using h
  | cons a l ih =>
    intro r h
    rw [List.cons_append, List.pairwise_cons] at h
    rw [List.dropWhile_cons]
    by_cases hp : p a = true
    · simpa [hp] using ih r h.2
    · rw [if_neg hp, List.cons_append, List.pairwise_cons]
      exact h

/-- In a strictly increasing list, every element surviving the
front-trimming dropWhile of values at most c exceeds c. -/
theorem lt_of_mem_dropWhile_le {l : List Int} {c x : Int}
    (hl : List.Pairwise (fun a b : Int => a < b) l)
    (hx : x ∈ l.dropWhile (fun y => decide (y ≤ c))) : c < x := by
  induction l with
  | nil => simp at hx
  | cons a l ih =>
    rw [List.pairwise_cons] at hl
    rw [List.dropWhile_cons] at hx
    by_cases ha : a ≤ c
    · rw [if_pos (decide_eq_true ha)] at hx
      exact ih hl.2 hx
    · rw [if_neg (by simpa using ha)] at hx
      rcases List.mem_cons.mp hx with h1 | h1
      · omega
      · exact lt_trans (lt_of_not_le ha) (hl.1 x h1)

/-- Folding recordFrame over a batch of timestamps preserves strict
ordering of the retained timestamps relative to any continuation. -/
theorem foldl_recordFrame_pairwise :
    ∀ (ts : List Int) (s : FrameRateProps) (r : List Int),
      List.Pairwise (fun a b : Int => a < b) (s.times ++ (ts ++ r)) →
      List.Pairwise (fun a b : Int => a < b) ((List.foldl recordFrame s ts).times ++ r) := by
  intro ts
  induction ts with
  | nil => intro s r h; simpa using h
  | cons u ts ih =>
    intro s r h
    rw [List.foldl_cons]
    apply ih
    rw [recordFrame_times]
    have h2 : List.Pairwise (fun a b : Int => a < b) (s.times ++ (u :: (ts ++ r))) := by
      simpa using h
    have h3 := pairwise_dropWhile_append (fun x => decide (x ≤ u - 1000)) s.times
      (u :: (ts ++ r)) h2
    simpa [List.append_assoc] using h3

/-- C4: for every sequence of drawFrameRate record calls with strictly
increasing timestamps starting from the empty times sequence, after
each call every retained timestamp x satisfies latest - x <= 1000,
where latest is the timestamp just pushed. -/
theorem recordFrame_window_invariant (ts : List Int) (t x : Int)
    (hinc : (ts ++ [t]).Chain' (fun a b : Int => a < b))
    (hx : x ∈ (List.foldl recordFrame frameRateProps (ts ++ [t])).times) :
    t - x ≤ 1000 := by
  have hpw : List.Pairwise (fun a b : Int => a < b) (ts ++ [t]) :=
    List.chain'_iff_pairwise.mp hinc
  have hs : List.Pairwise (fun a b : Int => a < b)
      ((List.foldl recordFrame frameRateProps ts).times ++ [t]) := by
    apply foldl_recordFrame_pairwise ts frameRateProps [t]
    simpa [frameRateProps] using hpw
  rw [List.foldl_append, List.foldl_cons, List.foldl_nil, recordFrame_times,
    List.mem_append] at hx
  rcases hx with hx | hx
  · have := lt_of_mem_dropWhile_le (List.pairwise_append.mp hs).1 hx
    omega
  · simp at hx
    omega

/-- Witness for C4: timestamps [0, 500, 1000], retained timestamp 500. -/
theorem recordFrame_window_invariant_witness : (1000 : Int) - 500 ≤ 1000 :=
  recordFrame_window_invariant [0, 500] 1000 500
    (by norm_num [List.chain'_cons, List.chain'_singleton]) (by decide)

/-- C6: for every measurement capability, context and text spec, the
text box returned by getTextBox satisfies exactly
textHeight = textBottom - textTop, textMid = textTop + textHeight / 2,
and textHorizonalCenter = textLeft + textWidth / 2. -/
theorem getTextBox_invariants (measure : String → String → TextMetrics)
    (c : Ctx) (tp : TextProps) :
    (getTextBox measure c tp).textHeight
        = (getTextBox measure c tp).textBottom - (getTextBox measure c tp).textTop ∧
    (getTextBox measure c tp).textMid
        = (getTextBox measure c tp).textTop + (getTextBox measure c tp).textHeight / 2 ∧
    (getTextBox measure c tp).textHorizonalCenter
        = (getTextBox measure c tp).textLeft + (getTextBox measure c tp).textWidth / 2 :=
  ⟨rfl, rfl, rfl⟩

/-- A measurement capability whose result depends on the font in force:
width 10 under font "B", width 20 under any other font. -/
def measureSample : String → String → TextMetrics :=
  fun f _ =>
    if f = "B" then
      { width := 10, actualBoundingBoxAscent := 0, actualBoundingBoxDescent := 0 }
    else
      { width := 20, actualBoundingBoxAscent := 0, actualBoundingBoxDescent := 0 }

/-- A context whose current font is "A". -/
def ctxFontA : Ctx :=
  { style := { strokeStyle := "", lineWidth := 0, fillStyle := "", font := "A" },
    stack := [], path := [], out := [] }

/-- A text spec whose font is "B". -/
def tpFontB : TextProps :=
  { message := "m", x := 0, y := 0, fillStyle := "white", font := "B" }

/-- C2 counterexample: getTextBox measures with the surface's current
font, not the text spec's font — on a surface whose font is "A" and a
spec whose font is "B", its result differs from the spec-mandated
assign-then-measure reading (textWidth 20 versus 10). -/
theorem getTextBox_font_counterexample :
    getTextBox measureSample ctxFontA tpFontB
      ≠ getTextBoxSpecced measureSample ctxFontA tpFontB := by
  intro h
  have h2 := congrArg TextBox.textWidth h
  simp [getTextBox, getTextBoxSpecced, setFont, setFillStyle, measureSample,
    ctxFontA, tpFontB] at h2

/-- C2 amended: it is drawTextBox, not getTextBox, that assigns the text
spec's fillStyle and font to the surface before measuring; consequently
the surface's prior fill/font state has no effect on drawTextBox at
all, and the measurement it draws reflects the spec's font. -/
theorem drawTextBox_applies_spec_font (measure : String → String → TextMetrics)
    (c : Ctx) (canvas : Canvas) (tp : TextProps) (s f : String) :
    drawTextBox measure (setFont f (setFillStyle s c)) canvas tp
      = drawTextBox measure c canvas tp := rfl

/-- C8: drawLine and drawText each restore the persistent style state
and the save stack, and any interleaving of the two drawers leaves the
style state exactly as it was before. -/
theorem drawLine_drawText_preserve_style :
    (∀ (lp : LineProps) (c : Ctx),
      (drawLine lp c).style = c.style ∧ (drawLine lp c).stack = c.stack) ∧
    (∀ (tp : TextProps) (c : Ctx),
      (drawText tp c).style = c.style ∧ (drawText tp c).stack = c.stack) ∧
    (∀ (ops : List DrawOp) (c : Ctx), (List.foldl drawOpStep c ops).style = c.style) := by
  refine ⟨fun lp c => ⟨rfl, rfl⟩, fun tp c => ⟨rfl, rfl⟩, fun ops => ?_⟩
  induction ops with
  | nil => intro c; rfl
  | cons op ops ih =>
    intro c
    rw [List.foldl_cons, ih (drawOpStep c op)]
    cases op <;> rfl

/-- C9: drawDiagonstics never reads showTextBox (the text-bounds branch
is commented out), so two runs from toggle states differing only in
showTextBox produce the identical context, output trace and frame-rate
state. -/
theorem drawDiagonstics_showTextBox_irrelevant (canvas : Canvas) (timeStamp : Int)
    (tog : ButtonBarToggles) (b : Bool) (mouse : MouseProps) (c : Ctx)
    (frp : FrameRateProps) :
    drawDiagonstics canvas timeStamp { tog with showTextBox := b } mouse c frp
      = drawDiagonstics canvas timeStamp tog mouse c frp := rfl

/-- C10: the click handler installed by addButtonToBar is an involution
on the toggle record: clicking twice restores the whole record,
clicking once flips the named toggle and leaves every other toggle
unchanged. -/
theorem addButtonToBarClick_involution (n : ToggleName) (t : ButtonBarToggles) :
    addButtonToBarClick n (addButtonToBarClick n t) = t ∧
    getToggle n (addButtonToBarClick n t) = !getToggle n t ∧
    (∀ m : ToggleName, m ≠ n →
      getToggle m (addButtonToBarClick n t) = getToggle m t) := by
  refine ⟨?_, ?_, ?_⟩
  · cases n <;> simp [addButtonToBarClick]
  · cases n <;> rfl
  · intro m hm
    cases n <;> cases m <;> simp_all [addButtonToBarClick, getToggle]

/-- Witness for C10: toggling showGrid twice from the initial toggle
record restores it, and one showGrid click leaves showFPS unchanged. -/
theorem addButtonToBarClick_involution_witness :
    addButtonToBarClick ToggleName.showGrid
        (addButtonToBarClick ToggleName.showGrid buttonBarToggles) = buttonBarToggles ∧
    getToggle ToggleName.showFPS (addButtonToBarClick ToggleName.showGrid buttonBarToggles)
      = getToggle ToggleName.showFPS buttonBarToggles :=
  ⟨(addButtonToBarClick_involution ToggleName.showGrid buttonBarToggles).1,
   (addButtonToBarClick_involution ToggleName.showGrid buttonBarToggles).2.2
     ToggleName.showFPS (by decide)⟩

/-- The grid loop on a 90px-wide canvas visits x = 0, 30, 60. -/
theorem gridSteps_90 : gridSteps 90 0 = [0, 30, 60] := by
  simp [gridSteps]

/-- The grid loop on a 60px-tall canvas visits y = 0, 30. -/
theorem gridSteps_60 : gridSteps 60 0 = [0, 30] := by
  simp [gridSteps]

/-- C7: drawGrid on a 90 by 60 surface issues exactly three vertical
lines at x = 0, 30, 60 spanning the full height and two horizontal
lines at y = 0, 30 spanning the full width, each followed by its
numeric label. -/
theorem drawGrid_90x60 :
    (drawGrid { width := 90, height := 60 } emptyCtx).out =
      [Cmd.stroke [PathSeg.move 0 0, PathSeg.lineTo 0 60] "#333" 2,
       Cmd.fillText "0" (-4) 20 "gray" "12px Arial",
       Cmd.stroke [PathSeg.move 30 0, PathSeg.lineTo 30 60] "#333" 2,
       Cmd.fillText "30" 26 20 "gray" "12px Arial",
       Cmd.stroke [PathSeg.move 60 0, PathSeg.lineTo 60 60] "#333" 2,
       Cmd.fillText "60" 56 20 "gray" "12px Arial",
       Cmd.stroke [PathSeg.move 0 0, PathSeg.lineTo 90 0] "#333" 2,
       Cmd.fillText "0" 10 4 "gray" "12px Arial",
       Cmd.stroke [PathSeg.move 0 30, PathSeg.lineTo 90 30] "#333" 2,
       Cmd.fillText "30" 10 34 "gray" "12px Arial"] := by
  simp only [drawGrid, gridSteps_90, gridSteps_60, List.foldl_cons, List.foldl_nil]
  simp [drawLine, drawText, save, restore, beginPath, moveTo, lineTo, setLineWidth,
    setStrokeStyle, setFillStyle, setFont, stroke, fillText, emptyCtx]
  and_intros <;> first
  | rfl
  | norm_num

end Grafix
